import Mathlib

/-!
Verification development for the ICE submissions log-status scripts
(`ice_status_all.py`, `ice_status_aud.py`, `file2audforus.py`).

The Python functions are shallowly embedded: strings become `String`
(processed as `List Char`), the literal / whitespace / digit-capture
regular expressions become small executable matchers, `datetime`
values become a record of calendar fields with the constructor-enforced
range invariants of `datetime.datetime`, and fallible file reading
becomes an `Except` value over an abstract source state.
-/

namespace IceStatus

/-- Lower-case an ASCII letter, as `re.IGNORECASE` folding does on the
ASCII marker literals used by the scripts. -/
def lowerChar (c : Char) : Char :=
  if 'A' ≤ c ∧ c ≤ 'Z' then Char.ofNat (c.toNat + 32) else c

/-- ASCII whitespace recognised by the regex class `\s`. -/
def isWSChar (c : Char) : Bool :=
  c = ' ' || c = '\t' || c = '\n' || c = '\r' || c = '\x0b' || c = '\x0c'

/-- ASCII digit, the regex class `\d`. -/
def isDigitChar (c : Char) : Bool :=
  '0' ≤ c && c ≤ '9'

/-- Match a literal pattern case-insensitively at the head of the input;
return the remaining input on success. -/
def stripLitCI : List Char → List Char → Option (List Char)
  | [], cs => some cs
  | _ :: _, [] => none
  | p :: ps, c :: cs =>
    if lowerChar p = lowerChar c then stripLitCI ps cs else none

/-- Does the literal pattern occur (case-insensitively) anywhere in the
input?  This is `re.search` for a plain-text pattern under
`re.IGNORECASE`. -/
def containsCharsCI (pat : List Char) : List Char → Bool
  | [] => (stripLitCI pat []).isSome
  | c :: cs => (stripLitCI pat (c :: cs)).isSome || containsCharsCI pat cs

def containsCI (pat s : String) : Bool :=
  containsCharsCI pat.data s.data

/-- Tokens of the simple patterns used by the scripts: case-insensitive
literals, `\s+`, and `\s*`.  Every literal in the scripts starts with a
non-whitespace, non-digit character, so maximal-munch whitespace is
exactly the backtracking regex semantics here. -/
inductive Tok where
  | lit (cs : List Char)
  | ws1
  | ws0

/-- Run a token sequence at the head of the input, returning the rest. -/
def runToks : List Tok → List Char → Option (List Char)
  | [], cs => some cs
  | Tok.lit p :: ts, cs =>
    match stripLitCI p cs with
    | some r => runToks ts r
    | none => none
  | Tok.ws1 :: ts, cs =>
    let r := cs.dropWhile isWSChar
    if r.length = cs.length then none else runToks ts r
  | Tok.ws0 :: ts, cs => runToks ts (cs.dropWhile isWSChar)

/-- After the tokens, capture the `(\d+)` group: a maximal non-empty
digit run. -/
def capNumAt (toks : List Tok) (cs : List Char) : Option String :=
  match runToks toks cs with
  | none => none
  | some r =>
    let ds := r.takeWhile isDigitChar
    if ds.isEmpty then none else some (String.mk ds)

/-- Leftmost-start search for a matcher over all positions of the
input, as `re.search` does. -/
def searchPos (f : List Char → Option α) : List Char → Option α
  | [] => f []
  | c :: cs =>
    match f (c :: cs) with
    | some r => some r
    | none => searchPos f cs

/-- Search a literal-plus-`\s*`-plus-`(\d+)` style pattern in a string,
returning the captured digit group of the leftmost match. -/
def searchCap (toks : List Tok) (s : String) : Option String :=
  searchPos (capNumAt toks) s.data

/-- Value of a captured digit string, `int(m.group(1))`. -/
def digitsToNat (s : String) : Nat :=
  s.data.foldl (fun acc c => acc * 10 + (c.toNat - 48)) 0

/-- The reason strings both `evaluate_block` variants append for missing
success components, in the order the Python code appends them. -/
def missingReasons (total_sub total_val total_contrib : Option String)
    (good pct100 end_ok : Bool) : List String :=
  (if total_sub.isNone then ["Missing \x27Total Prices to be submitted\x27"] else [])
    ++ (if total_val.isNone ∧ total_contrib.isNone
        then ["No validated/contributed totals found"] else [])
    ++ (if !good then ["No GoodFiles marker found"] else [])
    ++ (if !pct100 then ["No 100% confirmation"] else [])
    ++ (if !end_ok then ["No successful end marker"] else [])

/-- Gregorian leap-year rule used by `datetime`. -/
def isLeapYear (y : Nat) : Bool :=
  y % 4 = 0 && (y % 100 ≠ 0 || y % 400 = 0)

/-- Length of a month, as `datetime` validates the day field against. -/
def daysInMonth (y m : Nat) : Nat :=
  if m = 2 then (if isLeapYear y then 29 else 28)
  else if m = 4 ∨ m = 6 ∨ m = 9 ∨ m = 11 then 30 else 31

/-- A `datetime.date`: the constructor-enforced range invariants are part
of the type, as every Python `date` object satisfies them. -/
structure Date where
  y : Nat
  m : Nat
  d : Nat
  valid : 1 ≤ y ∧ y ≤ 9999 ∧ 1 ≤ m ∧ m ≤ 12 ∧ 1 ≤ d ∧ d ≤ daysInMonth y m

/-- A `datetime.time` with second resolution (the scripts never build
times with microseconds). -/
structure TimeOfDay where
  h : Nat
  mi : Nat
  s : Nat
  valid : h ≤ 23 ∧ mi ≤ 59 ∧ s ≤ 59

/-- A naive `datetime.datetime`, i.e. `datetime.combine(date, time)`. -/
structure Instant where
  date : Date
  time : TimeOfDay

/-- Mixed-radix encoding of an instant.  Because every field is within
its `datetime` range (month < 13, day < 32, hour < 24, minute and second
< 60), `key` is an order embedding of the field-lexicographic comparison
that Python uses on `datetime` values. -/
def Instant.key (t : Instant) : Nat :=
  ((((t.date.y * 13 + t.date.m) * 32 + t.date.d) * 24 + t.time.h) * 60 + t.time.mi) * 60
    + t.time.s

end IceStatus

namespace IceStatus.AllStatus

/-!  Embedding of `ice_status_all.py`. -/

open IceStatus

/-- Pattern `Validation Error\(s\)\s*:\s*(\d+)` of `_VALIDATION_ERRS`. -/
def validationErrsCap (s : String) : Option String :=
  searchCap [Tok.lit "Validation Error(s)".data, Tok.ws0, Tok.lit ":".data, Tok.ws0] s

/-- Pattern `Missing\s+Clearable\s+Prices\s*:\s*(\d+)` of `MISSING_CLEARABLE`. -/
def missingClearableCap (s : String) : Option String :=
  searchCap [Tok.lit "Missing".data, Tok.ws1, Tok.lit "Clearable".data, Tok.ws1,
    Tok.lit "Prices".data, Tok.ws0, Tok.lit ":".data, Tok.ws0] s

/-- Pattern `Missing\s+Prices\s*:\s*(\d+)` of `MISSING_GENERIC`. -/
def missingGenericCap (s : String) : Option String :=
  searchCap [Tok.lit "Missing".data, Tok.ws1, Tok.lit "Prices".data, Tok.ws0,
    Tok.lit ":".data, Tok.ws0] s

/-- Lazy part `.*?\)\s*:\s*(\d+)` of `MISSING_QUOTABLE`: scan (never past a
newline, since `.` does not match one) for a `)` after which the
deterministic tail matches; on failure the lazy dot absorbs the char and
the scan goes on. -/
def quotScan : List Char → Option String
  | [] => none
  | c :: cs =>
    match (if c = ')' then capNumAt [Tok.ws0, Tok.lit ":".data, Tok.ws0] cs else none) with
    | some r => some r
    | none => if c = '\n' then none else quotScan cs

/-- Pattern `Missing\s+Prices\s*\(Quotable.*?\)\s*:\s*(\d+)` of
`MISSING_QUOTABLE`. -/
def missingQuotableCap (s : String) : Option String :=
  searchPos
    (fun cs =>
      match runToks [Tok.lit "Missing".data, Tok.ws1, Tok.lit "Prices".data, Tok.ws0,
          Tok.lit "(Quotable".data] cs with
      | none => none
      | some r => quotScan r)
    s.data

/-- The `_int(...)` coercion of `classify_block_status`: captured count or 0. -/
def capToNat (o : Option String) : Nat :=
  match o with
  | none => 0
  | some d => digitsToNat d

/-- Maximal whitespace munch for `\s*`, keeping the consumed characters. -/
def munchWS (cs : List Char) : List Char × List Char :=
  (cs.takeWhile isWSChar, cs.dropWhile isWSChar)

/-- Lazy `.+?lit` with a continuation: at least one non-newline character,
then the literal, then the continuation; when the continuation fails the
lazy dot absorbs one more character and the scan resumes, exactly the
backtracking order of the regex engine.  Returns the consumed original
characters and the rest. -/
def scanLit1K (pat : List Char) (k : List Char → Option (List Char × List Char)) :
    List Char → Option (List Char × List Char)
  | [] => none
  | c :: cs =>
    if c = '\n' then none
    else
      match stripLitCI pat cs with
      | some r =>
        match k r with
        | some (con2, rest) => some (c :: (cs.take pat.length ++ con2), rest)
        | none =>
          match scanLit1K pat k cs with
          | some (con, rest) => some (c :: con, rest)
          | none => none
      | none =>
        match scanLit1K pat k cs with
        | some (con, rest) => some (c :: con, rest)
        | none => none

/-- The `\s*-\s*Curve\s*\[.+?not sent\. Invalid !.*$` tail of
`WARN_CURVE_LINE`, run right after a `WARN` occurrence.  The final `.*$`
consumes the rest of the line (MULTILINE `$` stops before a newline). -/
def afterWarn (cs : List Char) : Option (List Char × List Char) :=
  let (w1, r1) := munchWS cs
  match r1 with
  | '-' :: r2 =>
    let (w2, r3) := munchWS r2
    match stripLitCI "Curve".data r3 with
    | none => none
    | some r4 =>
      let (w3, r5) := munchWS r4
      match r5 with
      | '[' :: r6 =>
        match scanLit1K "not sent. Invalid !".data
            (fun rest => some (rest.takeWhile (fun c => c ≠ '\n'),
                               rest.dropWhile (fun c => c ≠ '\n'))) r6 with
        | some (con, rest) =>
          some (w1 ++ '-' :: (w2 ++ r3.take 5 ++ w3 ++ '[' :: con), rest)
        | none => none
      | _ => none
  | _ => none

/-- Try `WARN_CURVE_LINE` at one position (which the caller guarantees is a
line start, for the MULTILINE `^`): `\s*` munch, one optional opening
bracket, four digits, then the lazy scan to `WARN` and the tail. -/
def warnMatchAt (cs : List Char) : Option (List Char × List Char) :=
  let (w0, r0) := munchWS cs
  let p : List Char × List Char :=
    match r0 with
    | '[' :: r => (['['], r)
    | '(' :: r => (['('], r)
    | _ => ([], r0)
  let d4 := p.2.take 4
  if d4.length = 4 ∧ d4.all isDigitChar then
    match scanLit1K "WARN".data afterWarn (p.2.drop 4) with
    | some (con, rest) => some (w0 ++ p.1 ++ d4 ++ con, rest)
    | none => none
  else none

/-- Scanning loop of `WARN_CURVE_LINE.findall`: try the pattern at every
line-start position, emit the matched text, and resume after the match. -/
def warnFindGo : Nat → List Char → Bool → List String
  | 0, _, _ => []
  | _ + 1, [], _ => []
  | fuel + 1, c :: cs, atStart =>
    if atStart then
      match warnMatchAt (c :: cs) with
      | some (con, rest) => String.mk con :: warnFindGo fuel rest false
      | none => warnFindGo fuel cs (c = '\n')
    else warnFindGo fuel cs (c = '\n')

/-- `WARN_CURVE_LINE.findall(block_text)` of `ice_status_all.py`. -/
def warnCurveFindall (s : String) : List String :=
  warnFindGo (s.data.length + 1) s.data true

/-- The counters dictionary returned by `classify_block_status`. -/
structure Counters where
  validation_errors : Nat
  missing_clearable : Nat
  missing_quotable : Nat
  missing_generic : Nat
deriving DecidableEq

/-- `classify_block_status(block_text, submission_type)` of
`ice_status_all.py`: returns `(status_emoji, counters, info_lines,
caution_lines)`.  WARN curve lines go to `caution` when the clearable
missing count is positive, else to `info` when the quotable missing count
is positive; the status is `❌` iff the clearable missing count or the
validation error count is positive. -/
def classify_block_status (block_text : String) (submission_type : String) :
    String × Counters × List String × List String :=
  let val_err := capToNat (validationErrsCap block_text)
  let miss_clr := capToNat (missingClearableCap block_text)
  let miss_qtb := capToNat (missingQuotableCap block_text)
  let miss_gen := capToNat (missingGenericCap block_text)
  let warn_lines := warnCurveFindall block_text
  let caution_lines : List String := if miss_clr > 0 then warn_lines else []
  let info_lines : List String :=
    if miss_clr > 0 then [] else if miss_qtb > 0 then warn_lines else []
  let status := if miss_clr > 0 || val_err > 0 then "❌" else "✅"
  (status, ⟨val_err, miss_clr, miss_qtb, miss_gen⟩, info_lines, caution_lines)

/-- Take exactly `n` digits off the input and return their value. -/
def digitsN (n : Nat) (cs : List Char) : Option (Nat × List Char) :=
  let ds := cs.take n
  if ds.length = n ∧ ds.all isDigitChar
  then some (digitsToNat (String.mk ds), cs.drop n) else none

/-- A date separator of `_TIMESTAMP`, the class `[/\-]`. -/
def dropSep : List Char → Option (List Char)
  | c :: r => if c = '/' ∨ c = '-' then some r else none
  | [] => none

def dropColon : List Char → Option (List Char)
  | c :: r => if c = ':' then some r else none
  | [] => none

/-- The `\s+` between date and time of `_TIMESTAMP` (at least one
whitespace character; `strptime` accepts any whitespace run where the
format has a blank). -/
def dropWS1 (cs : List Char) : Option (List Char) :=
  let r := cs.dropWhile isWSChar
  if r.length = cs.length then none else some r

/-- Structural match of `_TIMESTAMP`
(`\d{4}[/\-]\d{2}[/\-]\d{2}\s+\d{2}:\d{2}:\d{2}`) at one position,
yielding the six numeric fields. -/
def tsShapeAt (cs : List Char) : Option (Nat × Nat × Nat × Nat × Nat × Nat) := do
  let (y, r1) ← digitsN 4 cs
  let r2 ← dropSep r1
  let (mo, r3) ← digitsN 2 r2
  let r4 ← dropSep r3
  let (d, r5) ← digitsN 2 r4
  let r6 ← dropWS1 r5
  let (h, r7) ← digitsN 2 r6
  let r8 ← dropColon r7
  let (mi, r9) ← digitsN 2 r8
  let r10 ← dropColon r9
  let (s, _) ← digitsN 2 r10
  pure (y, mo, d, h, mi, s)

/-- `parse_timestamp_from_line`: leftmost structural match of
`_TIMESTAMP`, then the `strptime` / `datetime` range validation; a
structurally matching but numerically invalid timestamp yields `none`
(the caught `ValueError`), not a later match. -/
def parse_timestamp_from_line (line : String) : Option Instant :=
  match searchPos tsShapeAt line.data with
  | none => none
  | some (y, mo, d, h, mi, s) =>
    if hv : (1 ≤ y ∧ y ≤ 9999 ∧ 1 ≤ mo ∧ mo ≤ 12 ∧ 1 ≤ d ∧ d ≤ daysInMonth y mo)
        ∧ (h ≤ 23 ∧ mi ≤ 59 ∧ s ≤ 59)
    then some ⟨⟨y, mo, d, hv.1⟩, ⟨h, mi, s, hv.2⟩⟩ else none

/-- Line-boundary characters of `str.splitlines`. -/
def isNewlineChar (c : Char) : Bool :=
  c = '\n' || c = '\r' || c = '\x0b' || c = '\x0c' || c = '\x1c' || c = '\x1d'
    || c = '\x1e' || c = '\x85' || c = '\u2028' || c = '\u2029'

/-- `str.splitlines` (no trailing empty line for a trailing newline). -/
def splitlinesGo : List Char → List Char → List String
  | [], acc => if acc.isEmpty then [] else [String.mk acc.reverse]
  | '\r' :: '\n' :: rest, acc => String.mk acc.reverse :: splitlinesGo rest []
  | c :: rest, acc =>
    if isNewlineChar c then String.mk acc.reverse :: splitlinesGo rest []
    else splitlinesGo rest (c :: acc)

def splitlines (s : String) : List String :=
  splitlinesGo s.data []

/-- `_SUCCESS_LINE.search(line)`. -/
def successSearch (line : String) : Bool :=
  containsCI "Program is ending successfully" line

/-- First parseable timestamp among the up-to-three lines preceding the
terminator (`for back in range(1, 4)` of `split_runs_early`), most
recent first. -/
def firstParse : List String → Option Instant
  | [] => none
  | l :: ls =>
    match parse_timestamp_from_line l with
    | some t => some t
    | none => firstParse ls

/-- Timestamp attached to a closed block: the terminator line itself
when it parses, else the first of the at most three preceding lines that
does. -/
def tsForTerminator (line : String) (prev3 : List String) : Option Instant :=
  match parse_timestamp_from_line line with
  | some t => some t
  | none => firstParse prev3

/-- Loop of `split_runs_early`: `curRev` is the pending block (reversed),
`prev3` the up-to-three most recently seen lines (most recent first,
possibly reaching before the current block, exactly as the Python
index arithmetic `lines[i - back]` does). A terminator with no
timestamp within reach drops the pending block; a trailing unterminated
block is never emitted. -/
def goSplit : List String → List String → List String → List (Instant × String)
  | [], _, _ => []
  | line :: rest, curRev, prev3 =>
    let newCur := line :: curRev
    let newPrev := (line :: prev3).take 3
    if successSearch line then
      match tsForTerminator line prev3 with
      | some ts => (ts, String.intercalate "\n" newCur.reverse) :: goSplit rest [] newPrev
      | none => goSplit rest [] newPrev
    else goSplit rest newCur newPrev

/-- `split_runs_early(log_text)` of `ice_status_all.py`. -/
def split_runs_early (log_text : String) : List (Instant × String) :=
  goSplit (splitlines log_text) [] []

/-- Stable insertion into an ascending-by-timestamp list; ties keep the
earlier element first, matching Python's stable `list.sort`. -/
def insertTs (x : Instant × String) : List (Instant × String) → List (Instant × String)
  | [] => [x]
  | y :: ys => if x.1.key ≤ y.1.key then x :: y :: ys else y :: insertTs x ys

/-- `candidates.sort(key=lambda x: x[0])`. -/
def sortTs : List (Instant × String) → List (Instant × String)
  | [] => []
  | x :: xs => insertTs x (sortTs xs)

/-- `pick_block_for_window(blocks, day, window)`: keep the blocks whose
timestamp lies in the inclusive window `[start_dt, end_dt]`, sort them,
and return the last (None when no candidate). -/
def pick_block_for_window (blocks : List (Instant × String)) (day : Date)
    (window : TimeOfDay × TimeOfDay) : Option (Instant × String) :=
  let start_dt : Instant := ⟨day, window.1⟩
  let end_dt : Instant := ⟨day, window.2⟩
  let candidates := blocks.filter fun p =>
    decide (start_dt.key ≤ p.1.key) && decide (p.1.key ≤ end_dt.key)
  if candidates.isEmpty then none else (sortTs candidates).getLast?

/-- The `status_for_window` closure of `build_rows`: no block in the
window gives the waiting status `⏳`, otherwise the picked block is
classified. -/
def status_for_window (blocks : List (Instant × String)) (day : Date) (typ : String)
    (win : TimeOfDay × TimeOfDay) : String × List String × List String :=
  match pick_block_for_window blocks day win with
  | none => ("⏳", [], [])
  | some (_, blk) =>
    let r := classify_block_status blk typ
    (r.1, r.2.2.1, r.2.2.2)

/-- Outcome of the underlying `open(...)`: the file is missing, exists
but is unreadable (a non-`FileNotFoundError` `OSError`), or has content. -/
inductive SourceState where
  | absent
  | unreadable
  | content (s : String)

/-- `read_text(path)`: only `FileNotFoundError` is caught and turned
into `None`; any other `OSError` propagates out of the function. -/
def read_text : SourceState → Except String (Option String)
  | SourceState.absent => Except.ok none
  | SourceState.unreadable => Except.error "OSError"
  | SourceState.content s => Except.ok (some s)

/-- The `if early_text: blocks = split_runs_early(early_text) else:
blocks = []` step of `build_rows` (a missing or empty text is falsy). -/
def blocks_of_text : Option String → List (Instant × String)
  | none => []
  | some s => if s = "" then [] else split_runs_early s

end IceStatus.AllStatus

namespace IceStatus.AudStatus

/-!  Embedding of `evaluate_block` and its regexes from `ice_status_aud.py`. -/

open IceStatus

/-- `END_ERR_RE.search`. -/
def endErrSearch (s : String) : Bool :=
  containsCI "Program is ending with error" s

/-- `SKIP_RE.search` (`Skipping auto submission`). -/
def skipSearch (s : String) : Bool :=
  containsCI "Skipping auto submission" s

/-- `BADFILES_RE.search`. -/
def badfilesSearch (s : String) : Bool :=
  containsCI "BadFiles" s

/-- `GOODFILES_RE.search`. -/
def goodfilesSearch (s : String) : Bool :=
  containsCI "GoodFiles" s

/-- `END_OK_RE.search`. -/
def endOkSearch (s : String) : Bool :=
  containsCI "Program is ending successfully" s

/-- `TOTAL_SUB_RE`: `Total Prices to be submitted:\s*(\d+)`. -/
def totalSubCap (s : String) : Option String :=
  searchCap [Tok.lit "Total Prices to be submitted:".data, Tok.ws0] s

/-- `TOTAL_VAL_RE`: `Total validated Prices submitted:\s*(\d+)`. -/
def totalValCap (s : String) : Option String :=
  searchCap [Tok.lit "Total validated Prices submitted:".data, Tok.ws0] s

/-- `TOTAL_CONTRIB_RE`: `Contributed Prices:\s*(\d+)`. -/
def totalContribCap (s : String) : Option String :=
  searchCap [Tok.lit "Contributed Prices:".data, Tok.ws0] s

/-- `PCT_100_RE` (`\(100(\.\d+)?%\)`) at one position: `(100` then either
directly `%)`, or a dot, a non-empty maximal digit run and `%)`. -/
def pct100At (cs : List Char) : Bool :=
  match stripLitCI "(100".data cs with
  | none => false
  | some r =>
    ((match r with
      | '.' :: r2 =>
        let ds := r2.takeWhile isDigitChar
        !ds.isEmpty && (stripLitCI "%)".data (r2.dropWhile isDigitChar)).isSome
      | _ => false)
     || (stripLitCI "%)".data r).isSome)

/-- `PCT_100_RE.search`. -/
def pct100Search (s : String) : Bool :=
  (searchPos (fun cs => if pct100At cs then some () else none) s.data).isSome

/-- `evaluate_block(block_lines)` of `ice_status_aud.py`.  The Python
guard `good and total_sub and pct100 and end_ok` is rendered as a match
on `total_sub` together with the three boolean conditions, which lets
`sub_val = total_sub.group(1)` be bound without a partial projection. -/
def evaluate_block (block_lines : List String) : String × List String :=
  if block_lines.isEmpty then
    ("TBC", ["No lines captured in the time window (±3 min)"])
  else
    let blob := String.intercalate "\n" block_lines
    if endErrSearch blob || skipSearch blob || badfilesSearch blob then
      ("NOK", ["Error/skip/badfiles marker detected"])
    else
      let good := goodfilesSearch blob
      let total_sub := totalSubCap blob
      let total_val := totalValCap blob
      let total_contrib := totalContribCap blob
      let pct100 := pct100Search blob
      let end_ok := endOkSearch blob
      match total_sub, (good && pct100 && end_ok : Bool) with
      | some sub_val, true =>
        if total_contrib = some sub_val then
          ("OK", ["SingleName: totals match + 100% + successful end"])
        else if total_val = some sub_val then
          ("OK", ["Index/IndexOption: totals match + 100% + successful end"])
        else
          ("NOK", ["Totals mismatch (submitted=" ++ sub_val
            ++ ", validated=" ++ total_val.getD "NA"
            ++ ", contributed=" ++ total_contrib.getD "NA" ++ ")"])
      | _, _ =>
        ("NOK", missingReasons total_sub total_val total_contrib good pct100 end_ok)

end IceStatus.AudStatus

namespace IceStatus.File2Aud

/-!  Embedding of `evaluate_block` and its regexes from `file2audforus.py`. -/

open IceStatus

/-- `END_ERR_RE.search`. -/
def endErrSearch (s : String) : Bool :=
  containsCI "Program is ending with error" s

/-- `SKIP_RE.search` (`Skipping submission`, unlike the aud variant). -/
def skipSearch (s : String) : Bool :=
  containsCI "Skipping submission" s

/-- `BADFILES_RE.search`. -/
def badfilesSearch (s : String) : Bool :=
  containsCI "BadFiles" s

/-- `GOODFILES_RE.search`. -/
def goodfilesSearch (s : String) : Bool :=
  containsCI "GoodFiles" s

/-- `END_OK_RE.search`. -/
def endOkSearch (s : String) : Bool :=
  containsCI "Program is ending successfully" s

/-- `PCT_100_RE` of this variant is the plain literal `\(100%`. -/
def pct100Search (s : String) : Bool :=
  containsCI "(100%" s

/-- `TOTAL_SUB_RE`: `Total Prices to be submitted:\s*(\d+)`. -/
def totalSubCap (s : String) : Option String :=
  searchCap [Tok.lit "Total Prices to be submitted:".data, Tok.ws0] s

/-- `TOTAL_VAL_RE`: `Total validated Prices submitted:\s*(\d+)`. -/
def totalValCap (s : String) : Option String :=
  searchCap [Tok.lit "Total validated Prices submitted:".data, Tok.ws0] s

/-- `TOTAL_CONTRIB_RE`: `Contributed Prices:\s*(\d+)`. -/
def totalContribCap (s : String) : Option String :=
  searchCap [Tok.lit "Contributed Prices:".data, Tok.ws0] s

/-- `evaluate_block(blob)` of `file2audforus.py`: same rule order as the
aud variant but taking the joined blob directly, with no empty-block
`TBC` case (the initial `status = "TBC"` in the Python code is dead). -/
def evaluate_block (blob : String) : String × List String :=
  if endErrSearch blob || skipSearch blob || badfilesSearch blob then
    ("NOK", ["Error/skip/badfiles marker detected"])
  else
    let good := goodfilesSearch blob
    let total_sub := totalSubCap blob
    let total_val := totalValCap blob
    let total_contrib := totalContribCap blob
    let pct100 := pct100Search blob
    let end_ok := endOkSearch blob
    match total_sub, (good && pct100 && end_ok : Bool) with
    | some sub_val, true =>
      if total_contrib = some sub_val then
        ("OK", ["SingleName: totals match + 100% + successful end"])
      else if total_val = some sub_val then
        ("OK", ["Index/IndexOption: totals match + 100% + successful end"])
      else
        ("NOK", ["Mismatch between totals (submitted=" ++ sub_val
          ++ ", validated=" ++ total_val.getD "NA"
          ++ ", contributed=" ++ total_contrib.getD "NA" ++ ")"])
    | _, _ =>
      ("NOK", missingReasons total_sub total_val total_contrib good pct100 end_ok)

end IceStatus.File2Aud

namespace IceStatus.TZ

/-!
Embedding of `local_to_server_time` from `ice_status_aud.py`.  The
timezone database consulted by `zoneinfo.ZoneInfo` is not part of the
repository, so its rules for the two zones the script uses are modelled
from the spec (daylight-saving arithmetic between the business region
and the log-writing host).
-/

open IceStatus

/-- A plain calendar date for the timezone arithmetic. -/
structure CDate where
  y : Nat
  m : Nat
  d : Nat
deriving DecidableEq

/-- A wall-clock hour and minute (the slot times have no seconds). -/
structure HM where
  h : Nat
  mi : Nat
deriving DecidableEq

/-- Days of the year before month `m` begins. -/
def daysBeforeMonth (y m : Nat) : Nat :=
  (match m with
   | 1 => 0 | 2 => 31 | 3 => 59 | 4 => 90 | 5 => 120 | 6 => 151
   | 7 => 181 | 8 => 212 | 9 => 243 | 10 => 273 | 11 => 304 | _ => 334)
  + (if 3 ≤ m ∧ isLeapYear y then 1 else 0)

/-- Days from 0001-01-01 (proleptic Gregorian, the `datetime` calendar)
to the given date. -/
def daysSinceEpoch (dt : CDate) : Nat :=
  365 * (dt.y - 1) + (dt.y - 1) / 4 - (dt.y - 1) / 100 + (dt.y - 1) / 400
    + daysBeforeMonth dt.y dt.m + (dt.d - 1)

/-- Day of the week, 0 = Monday as in `date.weekday()` (0001-01-01 was a
Monday). -/
def dayOfWeek (dt : CDate) : Nat :=
  daysSinceEpoch dt % 7

/-- Day number of the first Sunday of a month. -/
def firstSundayDay (y m : Nat) : Nat :=
  1 + (6 - dayOfWeek ⟨y, m, 1⟩) % 7

/-- Day number of the last Sunday of a month. -/
def lastSundayDay (y m : Nat) : Nat :=
  let n := daysInMonth y m
  n - (dayOfWeek ⟨y, m, n⟩ + 1) % 7

/-- Modelled from the spec: the `zoneinfo` daylight-saving rule for
Australia/Sydney, absent from the repository — daylight saving runs from
the first Sunday of October to the first Sunday of April (at day
granularity, which is exact away from the 2 am transition instant). -/
def sydneyIsDST (dt : CDate) : Bool :=
  11 ≤ dt.m || dt.m ≤ 3
    || (dt.m = 10 && firstSundayDay dt.y 10 ≤ dt.d)
    || (dt.m = 4 && dt.d < firstSundayDay dt.y 4)

/-- Modelled from the spec: the `zoneinfo` daylight-saving rule for
Europe/Paris, absent from the repository — daylight saving runs from the
last Sunday of March to the last Sunday of October (at day granularity,
exact away from the 01:00 UTC transition instant). -/
def parisIsDST (dt : CDate) : Bool :=
  (4 ≤ dt.m && dt.m ≤ 9)
    || (dt.m = 3 && lastSundayDay dt.y 3 ≤ dt.d)
    || (dt.m = 10 && dt.d < lastSundayDay dt.y 10)

/-- UTC offset of Australia/Sydney in minutes (AEDT +11:00 / AEST +10:00). -/
def sydOffsetMin (dt : CDate) : Nat :=
  if sydneyIsDST dt then 660 else 600

/-- UTC offset of Europe/Paris in minutes (CEST +02:00 / CET +01:00). -/
def parisOffsetMin (dt : CDate) : Nat :=
  if parisIsDST dt then 120 else 60

/-- Minutes from the epoch to a wall-clock datetime. -/
def toMin (dt : CDate) (t : HM) : Nat :=
  daysSinceEpoch dt * 1440 + t.h * 60 + t.mi

/-- Largest year whose January the first is not after day `n`
(bounded scan around the `n / 366` estimate). -/
def yearOfDays (n : Nat) : Nat :=
  (List.range 8).foldl
    (fun acc k =>
      let y := n / 366 + 1 + k
      if daysSinceEpoch ⟨y, 1, 1⟩ ≤ n then y else acc)
    (n / 366 + 1)

/-- Largest month of year `y` beginning at or before day-of-year `rem`. -/
def monthOfRem (y rem : Nat) : Nat :=
  (List.range 12).foldl
    (fun acc k => if daysBeforeMonth y (k + 1) ≤ rem then k + 1 else acc) 1

/-- Calendar date of an epoch day number. -/
def dateOfDays (n : Nat) : CDate :=
  let y := yearOfDays n
  let rem := n - daysSinceEpoch ⟨y, 1, 1⟩
  let m := monthOfRem y rem
  ⟨y, m, rem - daysBeforeMonth y m + 1⟩

/-- Wall-clock datetime of an epoch minute count. -/
def wallOfMin (n : Nat) : CDate × HM :=
  (dateOfDays (n / 1440), ⟨n % 1440 / 60, n % 60⟩)

/-- `local_to_server_time` of `ice_status_aud.py`: interpret the slot
time as an Australia/Sydney wall clock on the folder date (the zone
resolves the offset from the wall-clock date), convert the instant to
Europe/Paris (the default `--server-tz`), and read off the server wall
clock.  The server-side offset is resolved from the UTC instant, which
may fall on the previous calendar day. -/
def local_to_server_wall (folder : CDate) (t : HM) : CDate × HM :=
  let utc := toMin folder t - sydOffsetMin folder
  let utcDate := (wallOfMin utc).1
  wallOfMin (utc + parisOffsetMin utcDate)

/-- The `.time()` projection the Python function returns. -/
def local_to_server_time (folder : CDate) (t : HM) : HM :=
  (local_to_server_wall folder t).2

/-- Modelled from the spec: the inverse mapping (host-local wall clock
back to region-local wall clock) that the round-trip property composes
with the forward resolution; it is not present in the repository. -/
def server_to_local_wall (sd : CDate) (t : HM) : CDate × HM :=
  let utc := toMin sd t - parisOffsetMin sd
  let utcDate := (wallOfMin utc).1
  wallOfMin (utc + sydOffsetMin utcDate)

end IceStatus.TZ

namespace IceStatus.AllStatus

/-!  Order lemmas for the sort used by `pick_block_for_window`. -/

open IceStatus

/-- The comparison key relation of `candidates.sort(key=lambda x: x[0])`. -/
def leTs (a b : Instant × String) : Prop :=
  a.1.key ≤ b.1.key

theorem mem_insertTs {x a : Instant × String} :
    ∀ {l}, a ∈ insertTs x l ↔ a = x ∨ a ∈ l
  | [] => by simp [insertTs]
  | y :: ys => by
    by_cases h : x.1.key ≤ y.1.key <;>
      simp [insertTs, h, mem_insertTs (l := ys)] <;> tauto

theorem mem_sortTs {a : Instant × String} : ∀ {l}, a ∈ sortTs l ↔ a ∈ l
  | [] => Iff.rfl
  | y :: ys => by simp [sortTs, mem_insertTs, mem_sortTs (l := ys)]

theorem insertTs_chain {x : Instant × String} :
    ∀ {l}, List.Chain' leTs l → List.Chain' leTs (insertTs x l)
  | [], _ => List.chain'_singleton x
  | [y], _ => by
    by_cases hxy : x.1.key ≤ y.1.key <;>
      simp [insertTs, hxy, List.chain'_cons, leTs] <;> omega
  | y :: z :: zs, h => by
    rw [List.chain'_cons] at h
    by_cases hxy : x.1.key ≤ y.1.key
    · simp only [insertTs, hxy, if_true]
      exact List.Chain'.cons hxy ((List.chain'_cons).2 h)
    · have ih := insertTs_chain (x := x) (l := z :: zs) h.2
      by_cases hxz : x.1.key ≤ z.1.key
      · simp only [insertTs, hxy, if_false, hxz, if_true]
        simp only [insertTs, hxz, if_true] at ih
        exact (List.chain'_cons).2 ⟨by simp [leTs]; omega, ih⟩
      · simp only [insertTs, hxy, if_false, hxz, if_false]
        simp only [insertTs, hxz, if_false] at ih
        exact (List.chain'_cons).2 ⟨h.1, ih⟩

theorem sortTs_chain : ∀ l, List.Chain' leTs (sortTs l)
  | [] => List.chain'_nil
  | y :: ys => insertTs_chain (sortTs_chain ys)

theorem le_getLast_of_chain :
    ∀ (l : List (Instant × String)), List.Chain' leTs l →
      ∀ a ∈ l, ∀ z, l.getLast? = some z → a.1.key ≤ z.1.key := by
  intro l
  induction l with
  | nil => intro _ a ha; exact absurd ha (List.not_mem_nil a)
  | cons y ys ih =>
    intro hc a ha z hz
    cases ys with
    | nil =>
      simp at ha hz
      simp [ha, hz]
    | cons w ws =>
      rw [List.chain'_cons] at hc
      rw [List.getLast?_cons_cons] at hz
      rcases List.mem_cons.1 ha with rfl | ha2
      · exact le_trans hc.1 (ih hc.2 w (List.mem_cons_self w ws) z hz)
      · exact ih hc.2 a ha2 z hz

theorem insertTs_ne_nil {x : Instant × String} : ∀ {l}, insertTs x l ≠ []
  | [] => by simp [insertTs]
  | y :: ys => by
    by_cases h : x.1.key ≤ y.1.key <;> simp [insertTs, h]

theorem sortTs_eq_nil_iff : ∀ {l : List (Instant × String)}, sortTs l = [] ↔ l = []
  | [] => Iff.rfl
  | y :: ys => by simp [sortTs, insertTs_ne_nil]

end IceStatus.AllStatus

namespace IceStatus.AllStatus

open IceStatus

set_option maxHeartbeats 1000000 in
/-- Specification of a successful pick: the returned block is one of the
inputs, lies inside the inclusive window, and its timestamp dominates
every qualifying block. -/
theorem pick_some_spec {blocks : List (Instant × String)} {day : Date}
    {w : TimeOfDay × TimeOfDay} {ts : Instant} {blk : String}
    (h : pick_block_for_window blocks day w = some (ts, blk)) :
    (ts, blk) ∈ blocks ∧
      (Instant.key ⟨day, w.1⟩ ≤ ts.key ∧ ts.key ≤ Instant.key ⟨day, w.2⟩) ∧
      ∀ p ∈ blocks, Instant.key ⟨day, w.1⟩ ≤ p.1.key →
        p.1.key ≤ Instant.key ⟨day, w.2⟩ → p.1.key ≤ ts.key := by
  simp only [pick_block_for_window] at h
  split at h
  · exact absurd h (by simp)
  · have hmem : (ts, blk) ∈ sortTs (blocks.filter fun p =>
        decide (Instant.key ⟨day, w.1⟩ ≤ p.1.key) &&
          decide (p.1.key ≤ Instant.key ⟨day, w.2⟩)) :=
      List.mem_of_mem_getLast? h
    have hmem2 := mem_sortTs.1 hmem
    have hf := List.mem_filter.1 hmem2
    refine ⟨hf.1, ?_, ?_⟩
    · have := hf.2
      simp only [Bool.and_eq_true, decide_eq_true_eq] at this
      exact this
    · intro p hp hp1 hp2
      have hpc : p ∈ sortTs (blocks.filter fun p =>
          decide (Instant.key ⟨day, w.1⟩ ≤ p.1.key) &&
            decide (p.1.key ≤ Instant.key ⟨day, w.2⟩)) := by
        refine mem_sortTs.2 (List.mem_filter.2 ⟨hp, ?_⟩)
        simp only [Bool.and_eq_true, decide_eq_true_eq]
        exact ⟨hp1, hp2⟩
      exact le_getLast_of_chain _ (sortTs_chain _) p hpc (ts, blk) h

/-- A pick returns nothing exactly when no block timestamp lies in the
inclusive window. -/
theorem pick_none_iff {blocks : List (Instant × String)} {day : Date}
    {w : TimeOfDay × TimeOfDay} :
    pick_block_for_window blocks day w = none ↔
      ∀ p ∈ blocks, ¬(Instant.key ⟨day, w.1⟩ ≤ p.1.key ∧
        p.1.key ≤ Instant.key ⟨day, w.2⟩) := by
  simp only [pick_block_for_window]
  constructor
  · intro h p hp hcond
    by_cases hc : (blocks.filter fun p =>
        decide (Instant.key ⟨day, w.1⟩ ≤ p.1.key) &&
          decide (p.1.key ≤ Instant.key ⟨day, w.2⟩)).isEmpty
    · rw [List.isEmpty_iff] at hc
      have : p ∈ (blocks.filter fun p =>
          decide (Instant.key ⟨day, w.1⟩ ≤ p.1.key) &&
            decide (p.1.key ≤ Instant.key ⟨day, w.2⟩)) := by
        refine List.mem_filter.2 ⟨hp, ?_⟩
        simp only [Bool.and_eq_true, decide_eq_true_eq]
        exact hcond
      rw [hc] at this
      exact absurd this (List.not_mem_nil p)
    · simp only [hc, Bool.false_eq_true, if_false] at h
      rw [List.getLast?_eq_none_iff] at h
      exact absurd (sortTs_eq_nil_iff.1 h)
        (by simpa [List.isEmpty_iff] using hc)
  · intro h
    have hfil : (blocks.filter fun p =>
        decide (Instant.key ⟨day, w.1⟩ ≤ p.1.key) &&
          decide (p.1.key ≤ Instant.key ⟨day, w.2⟩)) = [] := by
      refine List.filter_eq_nil_iff.2 fun a ha => ?_
      simp only [Bool.and_eq_true, decide_eq_true_eq]
      exact h a ha
    simp [hfil]

end IceStatus.AllStatus

namespace IceStatus

/-- Date used by the concrete window examples (2025-09-15). -/
def exDay : Date := ⟨2025, 9, 15, by decide⟩

def exT10 : TimeOfDay := ⟨10, 0, 0, by decide⟩

def exT1015 : TimeOfDay := ⟨10, 15, 0, by decide⟩

def exT095959 : TimeOfDay := ⟨9, 59, 59, by decide⟩

def exT101501 : TimeOfDay := ⟨10, 15, 1, by decide⟩

def exT12 : TimeOfDay := ⟨12, 0, 0, by decide⟩

def exT16 : TimeOfDay := ⟨16, 0, 0, by decide⟩

/-- C3: the window picker selects among blocks whose instant lies within
the resolved window with both bounds inclusive (an instant exactly equal
to either bound qualifies, one second outside either bound does not);
among qualifying blocks the one with the greatest instant is returned;
and with no qualifying block it returns no block, which the caller maps
to the waiting status. -/
theorem c3_window_picker_inclusive_latest_or_waiting :
    (∀ (blocks : List (Instant × String)) (day : Date) (w : TimeOfDay × TimeOfDay) ts blk,
      AllStatus.pick_block_for_window blocks day w = some (ts, blk) →
        (ts, blk) ∈ blocks ∧
        (Instant.key ⟨day, w.1⟩ ≤ ts.key ∧ ts.key ≤ Instant.key ⟨day, w.2⟩) ∧
        ∀ p ∈ blocks, Instant.key ⟨day, w.1⟩ ≤ p.1.key →
          p.1.key ≤ Instant.key ⟨day, w.2⟩ → p.1.key ≤ ts.key) ∧
    (∀ (blocks : List (Instant × String)) (day : Date) (w : TimeOfDay × TimeOfDay),
      AllStatus.pick_block_for_window blocks day w = none ↔
        ∀ p ∈ blocks, ¬(Instant.key ⟨day, w.1⟩ ≤ p.1.key ∧
          p.1.key ≤ Instant.key ⟨day, w.2⟩)) ∧
    (∀ blocks day typ w, AllStatus.pick_block_for_window blocks day w = none →
      AllStatus.status_for_window blocks day typ w = ("⏳", [], [])) ∧
    (AllStatus.pick_block_for_window [(⟨exDay, exT10⟩, "b")] exDay
      (exT10, exT1015)).map Prod.snd = some "b" ∧
    (AllStatus.pick_block_for_window [(⟨exDay, exT1015⟩, "b")] exDay
      (exT10, exT1015)).map Prod.snd = some "b" ∧
    (AllStatus.pick_block_for_window [(⟨exDay, exT095959⟩, "b")] exDay
      (exT10, exT1015)).map Prod.snd = none ∧
    (AllStatus.pick_block_for_window [(⟨exDay, exT101501⟩, "b")] exDay
      (exT10, exT1015)).map Prod.snd = none := by
  refine ⟨fun blocks day w ts blk h => AllStatus.pick_some_spec h,
    fun blocks day w => AllStatus.pick_none_iff,
    fun blocks day typ w h => ?_, ?_, ?_, ?_, ?_⟩
  · simp [AllStatus.status_for_window, h]
  all_goals decide

/-- Witness: the picker applied to two qualifying blocks selects the one
at the window end, which belongs to the input and dominates both. -/
theorem c3_window_picker_witness :
    ((⟨exDay, exT1015⟩, "late") : Instant × String) ∈
      ([(⟨exDay, exT10⟩, "early"), (⟨exDay, exT1015⟩, "late")] : List (Instant × String)) ∧
    (Instant.key ⟨exDay, exT10⟩ ≤ Instant.key ⟨exDay, exT1015⟩ ∧
      Instant.key ⟨exDay, exT1015⟩ ≤ Instant.key ⟨exDay, exT1015⟩) ∧
    ∀ p ∈ ([(⟨exDay, exT10⟩, "early"), (⟨exDay, exT1015⟩, "late")] :
        List (Instant × String)),
      Instant.key ⟨exDay, exT10⟩ ≤ p.1.key →
        p.1.key ≤ Instant.key ⟨exDay, exT1015⟩ →
          p.1.key ≤ Instant.key ⟨exDay, exT1015⟩ :=
  c3_window_picker_inclusive_latest_or_waiting.1
    [(⟨exDay, exT10⟩, "early"), (⟨exDay, exT1015⟩, "late")] exDay (exT10, exT1015)
    ⟨exDay, exT1015⟩ "late" rfl

end IceStatus

namespace IceStatus

/-- C1 counterexample: a block whose text is exactly the error-termination
marker is classified `✅` (with empty note lists) by
`classify_block_status` of `ice_status_all.py`, which has no
hard-failure-marker rule — the claimed `NOK` short-circuit does not
exist there. -/
theorem c1_hard_marker_counterexample :
    containsCI "Program is ending with error" "Program is ending with error" = true ∧
    AllStatus.classify_block_status "Program is ending with error" "Index" =
      ("✅", ⟨0, 0, 0, 0⟩, [], []) := by
  constructor
  · rfl
  · rfl

/-- C1 (amended): `evaluate_block` of `ice_status_aud.py` and of
`file2audforus.py` short-circuits to `NOK` with the note
"Error/skip/badfiles marker detected" whenever the error-termination,
skip, or BadFiles marker occurs in the block text; `classify_block_status`
of `ice_status_all.py` has no such rule and returns `✅` whenever the
clearable-missing and validation-error counts are zero, whatever markers
are present. -/
theorem c1_hard_failure_markers :
    (∀ bl : List String,
      (AudStatus.endErrSearch (String.intercalate "\n" bl)
        || AudStatus.skipSearch (String.intercalate "\n" bl)
        || AudStatus.badfilesSearch (String.intercalate "\n" bl)) = true →
      AudStatus.evaluate_block bl = ("NOK", ["Error/skip/badfiles marker detected"])) ∧
    (∀ blob : String,
      (File2Aud.endErrSearch blob || File2Aud.skipSearch blob
        || File2Aud.badfilesSearch blob) = true →
      File2Aud.evaluate_block blob = ("NOK", ["Error/skip/badfiles marker detected"])) ∧
    (∀ blob typ, AllStatus.capToNat (AllStatus.missingClearableCap blob) = 0 →
      AllStatus.capToNat (AllStatus.validationErrsCap blob) = 0 →
      (AllStatus.classify_block_status blob typ).1 = "✅") := by
  refine ⟨fun bl h => ?_, fun blob h => ?_, fun blob typ h1 h2 => ?_⟩
  · cases bl with
    | nil => exact absurd h (by decide)
    | cons x xs => simp [AudStatus.evaluate_block, h]
  · simp [File2Aud.evaluate_block, h]
  · simp [AllStatus.classify_block_status, h1, h2]

/-- Witness: the skip marker alone forces `NOK` in both `evaluate_block`
variants, and a marker-free block is `✅` under `classify_block_status`. -/
theorem c1_hard_failure_markers_witness :
    AudStatus.evaluate_block ["Skipping auto submission"] =
      ("NOK", ["Error/skip/badfiles marker detected"]) ∧
    File2Aud.evaluate_block "BadFiles rejected" =
      ("NOK", ["Error/skip/badfiles marker detected"]) ∧
    (AllStatus.classify_block_status "all quiet" "Index").1 = "✅" :=
  ⟨c1_hard_failure_markers.1 ["Skipping auto submission"] (by decide),
   c1_hard_failure_markers.2.1 "BadFiles rejected" (by decide),
   c1_hard_failure_markers.2.2 "all quiet" "Index" (by decide) (by decide)⟩

end IceStatus

namespace IceStatus

/-- Characterization of the reason notes: a string is among them exactly
when it is the note for a marker that is really missing. -/
theorem mem_missingReasons {r : String} {ts tv tc : Option String} {g p e : Bool} :
    r ∈ missingReasons ts tv tc g p e ↔
      (r = "Missing \x27Total Prices to be submitted\x27" ∧ ts = none) ∨
      (r = "No validated/contributed totals found" ∧ tv = none ∧ tc = none) ∨
      (r = "No GoodFiles marker found" ∧ g = false) ∨
      (r = "No 100% confirmation" ∧ p = false) ∨
      (r = "No successful end marker" ∧ e = false) := by
  unfold missingReasons
  by_cases h1 : ts.isNone <;> by_cases h2 : (tv.isNone : Prop) ∧ (tc.isNone : Prop) <;>
    cases g <;> cases p <;> cases e <;>
      (simp_all [Option.isNone_iff_eq_none, not_and_or]; try tauto)

/-- C2 counterexample: a non-empty block with no hard-failure marker and
no success component at all is classified `NOK` with the full list of
missing-marker reasons — not the claimed `WAITING` (`TBC`). -/
theorem c2_waiting_counterexample :
    AudStatus.evaluate_block ["hello"] =
      ("NOK", ["Missing \x27Total Prices to be submitted\x27",
        "No validated/contributed totals found", "No GoodFiles marker found",
        "No 100% confirmation", "No successful end marker"]) ∧
    File2Aud.evaluate_block "hello" =
      ("NOK", ["Missing \x27Total Prices to be submitted\x27",
        "No validated/contributed totals found", "No GoodFiles marker found",
        "No 100% confirmation", "No successful end marker"]) ∧
    (AudStatus.evaluate_block ["hello"]).1 ≠ "TBC" := by
  refine ⟨rfl, rfl, ?_⟩
  decide

/-- C2 (amended): a non-empty block with no hard-failure marker whose
success composite is not satisfied is classified `NOK` (not waiting),
with the reasons naming exactly the missing required markers; the
waiting status `TBC` arises only for an empty capture.  Same for the
`file2audforus.py` variant, which has no empty case at all. -/
theorem c2_missing_markers_yield_nok :
    (∀ bl : List String, bl ≠ [] →
      (AudStatus.endErrSearch (String.intercalate "\n" bl)
        || AudStatus.skipSearch (String.intercalate "\n" bl)
        || AudStatus.badfilesSearch (String.intercalate "\n" bl)) = false →
      ¬(AudStatus.goodfilesSearch (String.intercalate "\n" bl) = true ∧
        (AudStatus.totalSubCap (String.intercalate "\n" bl)).isSome = true ∧
        AudStatus.pct100Search (String.intercalate "\n" bl) = true ∧
        AudStatus.endOkSearch (String.intercalate "\n" bl) = true) →
      AudStatus.evaluate_block bl =
        ("NOK", missingReasons (AudStatus.totalSubCap (String.intercalate "\n" bl))
          (AudStatus.totalValCap (String.intercalate "\n" bl))
          (AudStatus.totalContribCap (String.intercalate "\n" bl))
          (AudStatus.goodfilesSearch (String.intercalate "\n" bl))
          (AudStatus.pct100Search (String.intercalate "\n" bl))
          (AudStatus.endOkSearch (String.intercalate "\n" bl)))) ∧
    (∀ blob : String,
      (File2Aud.endErrSearch blob || File2Aud.skipSearch blob
        || File2Aud.badfilesSearch blob) = false →
      ¬(File2Aud.goodfilesSearch blob = true ∧
        (File2Aud.totalSubCap blob).isSome = true ∧
        File2Aud.pct100Search blob = true ∧ File2Aud.endOkSearch blob = true) →
      File2Aud.evaluate_block blob =
        ("NOK", missingReasons (File2Aud.totalSubCap blob) (File2Aud.totalValCap blob)
          (File2Aud.totalContribCap blob) (File2Aud.goodfilesSearch blob)
          (File2Aud.pct100Search blob) (File2Aud.endOkSearch blob))) ∧
    AudStatus.evaluate_block [] =
      ("TBC", ["No lines captured in the time window (±3 min)"]) := by
  refine ⟨fun bl hne h2 h3 => ?_, fun blob h2 h3 => ?_, rfl⟩
  · cases bl with
    | nil => exact absurd rfl hne
    | cons x xs =>
      simp only [AudStatus.evaluate_block, List.isEmpty_cons, Bool.false_eq_true,
        if_false, h2]
      rcases hsub : AudStatus.totalSubCap (String.intercalate "\n" (x :: xs)) with _ | sv
      · rfl
      · rcases hb : (AudStatus.goodfilesSearch (String.intercalate "\n" (x :: xs)) &&
            AudStatus.pct100Search (String.intercalate "\n" (x :: xs)) &&
            AudStatus.endOkSearch (String.intercalate "\n" (x :: xs)) : Bool) with _ | _
        · rfl
        · simp only [Bool.and_eq_true] at hb
          exact absurd ⟨hb.1.1, by simp [hsub], hb.1.2, hb.2⟩ h3
  · simp only [File2Aud.evaluate_block, Bool.false_eq_true, if_false, h2]
    rcases hsub : File2Aud.totalSubCap blob with _ | sv
    · rfl
    · rcases hb : (File2Aud.goodfilesSearch blob && File2Aud.pct100Search blob &&
          File2Aud.endOkSearch blob : Bool) with _ | _
      · rfl
      · simp only [Bool.and_eq_true] at hb
        exact absurd ⟨hb.1.1, by simp [hsub], hb.1.2, hb.2⟩ h3

/-- Witness: the amended C2 statement applied to the concrete block
`["hello"]` and blob `"hello"`. -/
theorem c2_missing_markers_yield_nok_witness :
    AudStatus.evaluate_block ["hello"] =
      ("NOK", missingReasons (AudStatus.totalSubCap (String.intercalate "\n" ["hello"]))
        (AudStatus.totalValCap (String.intercalate "\n" ["hello"]))
        (AudStatus.totalContribCap (String.intercalate "\n" ["hello"]))
        (AudStatus.goodfilesSearch (String.intercalate "\n" ["hello"]))
        (AudStatus.pct100Search (String.intercalate "\n" ["hello"]))
        (AudStatus.endOkSearch (String.intercalate "\n" ["hello"]))) ∧
    File2Aud.evaluate_block "hello" =
      ("NOK", missingReasons (File2Aud.totalSubCap "hello") (File2Aud.totalValCap "hello")
        (File2Aud.totalContribCap "hello") (File2Aud.goodfilesSearch "hello")
        (File2Aud.pct100Search "hello") (File2Aud.endOkSearch "hello")) :=
  ⟨c2_missing_markers_yield_nok.1 ["hello"] (by simp) (by decide) (by decide),
   c2_missing_markers_yield_nok.2.1 "hello" (by decide) (by decide)⟩

end IceStatus

namespace IceStatus

/-- C4: with no hard-failure marker and the full success composite
present (good-input marker, a submitted total, the 100%-complete marker
and the successful termination marker), classification is `OK` exactly
when the submitted total string-equals the contributed total (SingleName)
or the validated total (Index/IndexOption), whichever is present; a
mismatch gives `NOK` with a note carrying both figures. -/
theorem c4_success_composite_exact_totals :
    (∀ (bl : List String) (sub_val : String),
      (AudStatus.endErrSearch (String.intercalate "\n" bl)
        || AudStatus.skipSearch (String.intercalate "\n" bl)
        || AudStatus.badfilesSearch (String.intercalate "\n" bl)) = false →
      AudStatus.goodfilesSearch (String.intercalate "\n" bl) = true →
      AudStatus.totalSubCap (String.intercalate "\n" bl) = some sub_val →
      AudStatus.pct100Search (String.intercalate "\n" bl) = true →
      AudStatus.endOkSearch (String.intercalate "\n" bl) = true →
      ((AudStatus.evaluate_block bl).1 = "OK" ↔
        (AudStatus.totalContribCap (String.intercalate "\n" bl) = some sub_val ∨
          AudStatus.totalValCap (String.intercalate "\n" bl) = some sub_val)) ∧
      (AudStatus.totalContribCap (String.intercalate "\n" bl) ≠ some sub_val →
        AudStatus.totalValCap (String.intercalate "\n" bl) ≠ some sub_val →
        AudStatus.evaluate_block bl =
          ("NOK", ["Totals mismatch (submitted=" ++ sub_val ++ ", validated="
            ++ (AudStatus.totalValCap (String.intercalate "\n" bl)).getD "NA"
            ++ ", contributed="
            ++ (AudStatus.totalContribCap (String.intercalate "\n" bl)).getD "NA"
            ++ ")"]))) ∧
    (∀ (blob : String) (sub_val : String),
      (File2Aud.endErrSearch blob || File2Aud.skipSearch blob
        || File2Aud.badfilesSearch blob) = false →
      File2Aud.goodfilesSearch blob = true →
      File2Aud.totalSubCap blob = some sub_val →
      File2Aud.pct100Search blob = true →
      File2Aud.endOkSearch blob = true →
      ((File2Aud.evaluate_block blob).1 = "OK" ↔
        (File2Aud.totalContribCap blob = some sub_val ∨
          File2Aud.totalValCap blob = some sub_val)) ∧
      (File2Aud.totalContribCap blob ≠ some sub_val →
        File2Aud.totalValCap blob ≠ some sub_val →
        File2Aud.evaluate_block blob =
          ("NOK", ["Mismatch between totals (submitted=" ++ sub_val ++ ", validated="
            ++ (File2Aud.totalValCap blob).getD "NA" ++ ", contributed="
            ++ (File2Aud.totalContribCap blob).getD "NA" ++ ")"]))) := by
  constructor
  · intro bl sub_val h1 hg hsub hp he
    cases bl with
    | nil => exact absurd hg (by decide)
    | cons x xs =>
      simp only [AudStatus.evaluate_block, List.isEmpty_cons, Bool.false_eq_true,
        if_false, h1, hsub, hg, hp, he, Bool.and_self]
      by_cases hc : AudStatus.totalContribCap (String.intercalate "\n" (x :: xs)) =
          some sub_val
      · constructor
        · simp [hc]
        · intro hc2 _
          exact absurd hc hc2
      · by_cases hv : AudStatus.totalValCap (String.intercalate "\n" (x :: xs)) =
            some sub_val
        · constructor
          · simp [hc, hv]
          · intro _ hv2
            exact absurd hv hv2
        · constructor
          · simp only [hc, if_false, hv]
            exact iff_of_false (by simp) (by simp [hc, hv])
          · intro _ _
            simp [hc, hv]
  · intro blob sub_val h1 hg hsub hp he
    simp only [File2Aud.evaluate_block, Bool.false_eq_true, if_false, h1, hsub,
      hg, hp, he, Bool.and_self]
    by_cases hc : File2Aud.totalContribCap blob = some sub_val
    · constructor
      · simp [hc]
      · intro hc2 _
        exact absurd hc hc2
    · by_cases hv : File2Aud.totalValCap blob = some sub_val
      · constructor
        · simp [hc, hv]
        · intro _ hv2
          exact absurd hv hv2
      · constructor
        · simp only [hc, if_false, hv]
          exact iff_of_false (by simp) (by simp [hc, hv])
        · intro _ _
          simp [hc, hv]

/-- Concrete success block of the spec scenario: good input, matching
totals, complete, terminated successfully. -/
def c4ExBlock : List String :=
  ["GoodFiles", "Total Prices to be submitted: 100",
   "Total validated Prices submitted: 100", "(100%)",
   "Program is ending successfully"]

/-- Witness: the C4 theorem applied to a concrete matching-totals block
(both variants). -/
theorem c4_success_composite_exact_totals_witness :
    (((AudStatus.evaluate_block c4ExBlock).1 = "OK" ↔
      (AudStatus.totalContribCap (String.intercalate "\n" c4ExBlock) = some "100" ∨
        AudStatus.totalValCap (String.intercalate "\n" c4ExBlock) = some "100")) ∧
      (AudStatus.totalContribCap (String.intercalate "\n" c4ExBlock) ≠ some "100" →
        AudStatus.totalValCap (String.intercalate "\n" c4ExBlock) ≠ some "100" →
        AudStatus.evaluate_block c4ExBlock =
          ("NOK", ["Totals mismatch (submitted=" ++ "100" ++ ", validated="
            ++ (AudStatus.totalValCap (String.intercalate "\n" c4ExBlock)).getD "NA"
            ++ ", contributed="
            ++ (AudStatus.totalContribCap (String.intercalate "\n" c4ExBlock)).getD "NA"
            ++ ")"]))) ∧
    ((File2Aud.evaluate_block "GoodFiles (100%) Total Prices to be submitted: 7 Contributed Prices: 7 Program is ending successfully").1 = "OK" ↔
      (File2Aud.totalContribCap "GoodFiles (100%) Total Prices to be submitted: 7 Contributed Prices: 7 Program is ending successfully" = some "7" ∨
        File2Aud.totalValCap "GoodFiles (100%) Total Prices to be submitted: 7 Contributed Prices: 7 Program is ending successfully" = some "7")) :=
  ⟨c4_success_composite_exact_totals.1 c4ExBlock "100" (by decide) (by decide)
      (by decide) (by decide) (by decide),
   (c4_success_composite_exact_totals.2 "GoodFiles (100%) Total Prices to be submitted: 7 Contributed Prices: 7 Program is ending successfully"
      "7" (by decide) (by decide) (by decide) (by decide) (by decide)).1⟩

end IceStatus

namespace IceStatus.AllStatus

open IceStatus

/-- Taking three of a list whose tail part was already cut to three is
the same as cutting the whole concatenation to three. -/
theorem take3_append (A B : List String) :
    (A ++ B.take 3).take 3 = (A ++ B).take 3 := by
  rw [List.take_append_eq_append_take, List.take_append_eq_append_take, List.take_take,
    Nat.min_eq_left (Nat.sub_le 3 A.length)]

/-- Shifting the three-line lookback window across the head line. -/
theorem shift_window (line : String) (rest prev3 : List String) (i : Nat) :
    ((rest.take i).reverse ++ (line :: prev3).take 3).take 3 =
      (((line :: rest).take (i + 1)).reverse ++ prev3).take 3 := by
  rw [take3_append, List.take_succ_cons, List.reverse_cons, List.append_assoc]
  rfl

/-- Every block emitted by the segmentation loop owes its timestamp to a
terminator line together with the at most three lines just before it in
the file (which may precede the block itself). -/
theorem goSplit_ts_characterization :
    ∀ (lines curRev prev3 : List String), prev3.length ≤ 3 →
      ∀ ts blk, (ts, blk) ∈ goSplit lines curRev prev3 →
        ∃ i, ∃ h : i < lines.length,
          successSearch (lines.get ⟨i, h⟩) = true ∧
          tsForTerminator (lines.get ⟨i, h⟩)
            (((lines.take i).reverse ++ prev3).take 3) = some ts := by
  intro lines
  induction lines with
  | nil =>
    intro _ _ _ ts blk h
    exact absurd h (List.not_mem_nil _)
  | cons line rest ih =>
    intro curRev prev3 hp ts blk hmem
    by_cases hsucc : successSearch line = true
    · rcases hts : tsForTerminator line prev3 with _ | ts0
      · rw [goSplit, if_pos hsucc, hts] at hmem
        obtain ⟨j, hj, hs, ht⟩ := ih [] ((line :: prev3).take 3)
          (List.length_take_le 3 _) ts blk hmem
        refine ⟨j + 1, Nat.succ_lt_succ hj, hs, ?_⟩
        rw [← shift_window]
        exact ht
      · rw [goSplit, if_pos hsucc, hts] at hmem
        rcases List.mem_cons.1 hmem with heq | htail
        · rw [Prod.ext_iff] at heq
          refine ⟨0, Nat.succ_pos _, hsucc, ?_⟩
          simp only [List.take_zero, List.reverse_nil, List.nil_append,
            List.take_of_length_le hp]
          show tsForTerminator line prev3 = some ts
          rw [hts]
          exact congrArg some heq.1.symm
        · obtain ⟨j, hj, hs, ht⟩ := ih [] ((line :: prev3).take 3)
            (List.length_take_le 3 _) ts blk htail
          refine ⟨j + 1, Nat.succ_lt_succ hj, hs, ?_⟩
          rw [← shift_window]
          exact ht
    · rw [goSplit, if_neg hsucc] at hmem
      obtain ⟨j, hj, hs, ht⟩ := ih (line :: curRev) ((line :: prev3).take 3)
        (List.length_take_le 3 _) ts blk hmem
      refine ⟨j + 1, Nat.succ_lt_succ hj, hs, ?_⟩
      rw [← shift_window]
      exact ht

end IceStatus.AllStatus

namespace IceStatus

/-- C5 counterexample: the latest timestamped line of this block sits
four lines before the terminator, outside the three-line lookback of
`split_runs_early`, so the block is discarded entirely — the claimed
whole-block backward scan (which would yield the 10:00:00 instant) does
not happen, and no block with an absent instant is ever returned
either. -/
theorem c5_lookback_counterexample :
    (AllStatus.parse_timestamp_from_line "2025/01/01 10:00:00 start").isSome = true ∧
    AllStatus.split_runs_early
      "2025/01/01 10:00:00 start\na\nb\nc\nProgram is ending successfully" = [] := by
  constructor
  · rfl
  · rfl

/-- C5 (amended): a closed block carries the timestamp of its own
terminating line when that line parses; otherwise the first parseable
timestamp among the at most three immediately preceding lines of the
file (a window that can reach into the previous block); when none of
those four lines parses, the block is dropped, so every returned block
has a present instant. -/
theorem c5_nominal_instant_three_line_lookback :
    (∀ line prev3 t, AllStatus.parse_timestamp_from_line line = some t →
      AllStatus.tsForTerminator line prev3 = some t) ∧
    (∀ text ts blk, (ts, blk) ∈ AllStatus.split_runs_early text →
      ∃ i, ∃ h : i < (AllStatus.splitlines text).length,
        AllStatus.successSearch ((AllStatus.splitlines text).get ⟨i, h⟩) = true ∧
        AllStatus.tsForTerminator ((AllStatus.splitlines text).get ⟨i, h⟩)
          (((AllStatus.splitlines text).take i).reverse.take 3) = some ts) := by
  constructor
  · intro line prev3 t h
    simp [AllStatus.tsForTerminator, h]
  · intro text ts blk hmem
    obtain ⟨i, hi, hs, ht⟩ := AllStatus.goSplit_ts_characterization
      (AllStatus.splitlines text) [] [] (by simp) ts blk hmem
    exact ⟨i, hi, hs, by simpa using ht⟩

/-- Terminator line of the C5 witness run: it carries its own timestamp. -/
def c5ExLine : String := "2025/01/01 10:00:00 run Program is ending successfully"

def c5ExTs : Instant := ⟨⟨2025, 1, 1, by decide⟩, ⟨10, 0, 0, by decide⟩⟩

/-- Witness: the single-line run is emitted with its terminator's own
timestamp, and the characterization locates that line. -/
theorem c5_nominal_instant_witness :
    AllStatus.tsForTerminator c5ExLine ["x"] = some c5ExTs ∧
    ∃ i, ∃ h : i < (AllStatus.splitlines c5ExLine).length,
      AllStatus.successSearch ((AllStatus.splitlines c5ExLine).get ⟨i, h⟩) = true ∧
      AllStatus.tsForTerminator ((AllStatus.splitlines c5ExLine).get ⟨i, h⟩)
        (((AllStatus.splitlines c5ExLine).take i).reverse.take 3) = some c5ExTs :=
  ⟨c5_nominal_instant_three_line_lookback.1 c5ExLine ["x"] c5ExTs rfl,
   c5_nominal_instant_three_line_lookback.2 c5ExLine c5ExTs c5ExLine
     (by rw [show AllStatus.split_runs_early c5ExLine = [(c5ExTs, c5ExLine)] from rfl]
         exact List.mem_singleton.mpr rfl)⟩

end IceStatus

namespace IceStatus

/-- C6 counterexample: a block with a WARN curve line but neither a
clearable-missing nor a quotable-missing count gets NO note at all — the
warn lines are not "always appended to info": they are dropped. -/
theorem c6_warn_lines_counterexample :
    AllStatus.warnCurveFindall "2025/01/01 WARN - Curve [X] not sent. Invalid !" =
      ["2025/01/01 WARN - Curve [X] not sent. Invalid !"] ∧
    AllStatus.classify_block_status "2025/01/01 WARN - Curve [X] not sent. Invalid !"
      "Index" = ("✅", ⟨0, 0, 0, 0⟩, [], []) := by
  constructor
  · rfl
  · rfl

/-- C6 (amended): the WARN curve lines go to `caution` (with status
forced `❌`) when the clearable-missing count is positive, to `info` when
it is zero and the quotable-missing count is positive, and are discarded
when both counts are zero — they are not appended to `info`
unconditionally. -/
theorem c6_warn_note_placement :
    ∀ blob typ,
      ((AllStatus.classify_block_status blob typ).2.1.missing_clearable > 0 →
        (AllStatus.classify_block_status blob typ).2.2.2 =
          AllStatus.warnCurveFindall blob ∧
        (AllStatus.classify_block_status blob typ).2.2.1 = [] ∧
        (AllStatus.classify_block_status blob typ).1 = "❌") ∧
      ((AllStatus.classify_block_status blob typ).2.1.missing_clearable = 0 →
        (AllStatus.classify_block_status blob typ).2.1.missing_quotable > 0 →
        (AllStatus.classify_block_status blob typ).2.2.1 =
          AllStatus.warnCurveFindall blob ∧
        (AllStatus.classify_block_status blob typ).2.2.2 = []) ∧
      ((AllStatus.classify_block_status blob typ).2.1.missing_clearable = 0 →
        (AllStatus.classify_block_status blob typ).2.1.missing_quotable = 0 →
        (AllStatus.classify_block_status blob typ).2.2.1 = [] ∧
        (AllStatus.classify_block_status blob typ).2.2.2 = []) := by
  intro blob typ
  simp only [AllStatus.classify_block_status]
  refine ⟨fun hc => ?_, fun hc hq => ?_, fun hc hq => ?_⟩
  · simp [hc]
  · simp [hc, hq]
  · simp [hc, hq]

/-- Witness: on a block with a positive clearable-missing count and a
WARN curve line, the warn lines land in `caution`, `info` stays empty,
and the status is `❌`. -/
theorem c6_warn_note_placement_witness :
    (AllStatus.classify_block_status
        "Missing Clearable Prices: 2\n2025/01/01 WARN - Curve [X] not sent. Invalid !"
        "Index").2.2.2 =
      AllStatus.warnCurveFindall
        "Missing Clearable Prices: 2\n2025/01/01 WARN - Curve [X] not sent. Invalid !" ∧
    (AllStatus.classify_block_status
        "Missing Clearable Prices: 2\n2025/01/01 WARN - Curve [X] not sent. Invalid !"
        "Index").2.2.1 = [] ∧
    (AllStatus.classify_block_status
        "Missing Clearable Prices: 2\n2025/01/01 WARN - Curve [X] not sent. Invalid !"
        "Index").1 = "❌" :=
  (c6_warn_note_placement
    "Missing Clearable Prices: 2\n2025/01/01 WARN - Curve [X] not sent. Invalid !"
    "Index").1 (by decide)

/-- C7 counterexample: a source that exists but is unreadable raises
(only `FileNotFoundError` is caught by `read_text`), instead of being
treated as zero lines as the claim asserts for unreadable sources. -/
theorem c7_unreadable_source_counterexample :
    AllStatus.read_text AllStatus.SourceState.unreadable = Except.error "OSError" := rfl

/-- C7 (amended): an absent source raises no error — `read_text` maps it
to `None`, `build_rows` then uses zero blocks, the picker finds no
block, and every window classifies as waiting; the zero-line text also
segments to zero blocks.  An unreadable-but-present source, however,
propagates its `OSError`. -/
theorem c7_absent_source_waits :
    AllStatus.read_text AllStatus.SourceState.absent = Except.ok none ∧
    AllStatus.blocks_of_text none = [] ∧
    AllStatus.split_runs_early "" = [] ∧
    (∀ (day : Date) (typ : String) (win : TimeOfDay × TimeOfDay),
      AllStatus.status_for_window (AllStatus.blocks_of_text none) day typ win =
        ("⏳", [], [])) :=
  ⟨rfl, rfl, rfl, fun _ _ _ => rfl⟩

/-- C8 counterexample: a window whose start (16:00) is after its end
(10:00) is not reported as a configuration error — with a 12:00 block
present the row silently classifies as waiting. -/
theorem c8_inverted_window_counterexample :
    AllStatus.status_for_window [(⟨exDay, exT12⟩, "run")] exDay "Index"
      (exT16, exT10) = ("⏳", [], []) := rfl

/-- C8 (amended): no validation of `start ≤ end` exists anywhere; an
inverted window simply admits no candidate block, so the picker returns
no block and the caller maps the window to the waiting status — never a
distinct fatal configuration error. -/
theorem c8_inverted_window_waits :
    ∀ (blocks : List (Instant × String)) (day : Date) (w : TimeOfDay × TimeOfDay)
      (typ : String),
      Instant.key ⟨day, w.2⟩ < Instant.key ⟨day, w.1⟩ →
      AllStatus.pick_block_for_window blocks day w = none ∧
      AllStatus.status_for_window blocks day typ w = ("⏳", [], []) := by
  intro blocks day w typ hlt
  have hnone : AllStatus.pick_block_for_window blocks day w = none :=
    AllStatus.pick_none_iff.2 fun p hp hcond =>
      absurd (le_trans hcond.1 hcond.2) (by omega)
  exact ⟨hnone, by simp [AllStatus.status_for_window, hnone]⟩

/-- Witness: the inverted 16:00–10:00 window at a concrete block list. -/
theorem c8_inverted_window_waits_witness :
    AllStatus.pick_block_for_window [(⟨exDay, exT12⟩, "run")] exDay
      (exT16, exT10) = none ∧
    AllStatus.status_for_window [(⟨exDay, exT12⟩, "run")] exDay "Index"
      (exT16, exT10) = ("⏳", [], []) :=
  c8_inverted_window_waits [(⟨exDay, exT12⟩, "run")] exDay (exT16, exT10) "Index"
    (by decide)

/-- C10: `classify_block_status` is total over block texts and returns
only `✅` or `❌` — never the waiting emoji; in particular the empty
string (no markers, all counts absent hence zero) is classified `✅`
with empty notes. -/
theorem c10_classify_never_waiting :
    (∀ blob typ, (AllStatus.classify_block_status blob typ).1 = "✅" ∨
      (AllStatus.classify_block_status blob typ).1 = "❌") ∧
    (∀ blob typ, (AllStatus.classify_block_status blob typ).1 ≠ "⏳") ∧
    AllStatus.classify_block_status "" "Index" = ("✅", ⟨0, 0, 0, 0⟩, [], []) := by
  have hmain : ∀ blob typ, (AllStatus.classify_block_status blob typ).1 = "✅" ∨
      (AllStatus.classify_block_status blob typ).1 = "❌" := by
    intro blob typ
    simp only [AllStatus.classify_block_status]
    split
    · exact Or.inr rfl
    · exact Or.inl rfl
  refine ⟨hmain, fun blob typ => ?_, rfl⟩
  rcases hmain blob typ with h | h <;> rw [h] <;> decide

/-- C9: over one date inside the Sydney daylight-saving period (which is
outside the Paris one) and one date in the opposite situation, resolving
each slot wall time from the business region to the host region and
applying the inverse mapping returns the original business-local wall
time. -/
theorem c9_resolve_window_round_trip :
    TZ.sydneyIsDST ⟨2025, 1, 15⟩ = true ∧ TZ.parisIsDST ⟨2025, 1, 15⟩ = false ∧
    TZ.sydneyIsDST ⟨2025, 6, 16⟩ = false ∧ TZ.parisIsDST ⟨2025, 6, 16⟩ = true ∧
    (∀ t ∈ ([⟨10, 0⟩, ⟨16, 0⟩, ⟨16, 15⟩, ⟨16, 30⟩] : List TZ.HM),
      ∀ d ∈ ([⟨2025, 1, 15⟩, ⟨2025, 6, 16⟩] : List TZ.CDate),
        TZ.server_to_local_wall (TZ.local_to_server_wall d t).1
          (TZ.local_to_server_wall d t).2 = (d, t) ∧
        TZ.local_to_server_time d t = (TZ.local_to_server_wall d t).2) := by
  decide

/-- Witness: the morning slot on the Sydney-DST date round-trips. -/
theorem c9_resolve_window_round_trip_witness :
    TZ.server_to_local_wall
        (TZ.local_to_server_wall ⟨2025, 1, 15⟩ ⟨10, 0⟩).1
        (TZ.local_to_server_wall ⟨2025, 1, 15⟩ ⟨10, 0⟩).2 =
      (⟨2025, 1, 15⟩, ⟨10, 0⟩) ∧
    TZ.local_to_server_time ⟨2025, 1, 15⟩ ⟨10, 0⟩ =
      (TZ.local_to_server_wall ⟨2025, 1, 15⟩ ⟨10, 0⟩).2 :=
  c9_resolve_window_round_trip.2.2.2.2 ⟨10, 0⟩ (by decide) ⟨2025, 1, 15⟩ (by decide)

end IceStatus
